import Mathlib

/-!
Verification of the notepad-tracker autosave pipeline (`src/run.py`).

The program is a Flask app with two routes (`GET /` rendering the note,
`POST /save` writing the note file and committing it with git) plus a
bootstrap function `setup_repo` run once at module import.  We embed the
program state (filesystem + git repository + failure-injection flags for
the I/O environment) as an explicit record `Sys`, and each Python function
as a pure state-passing Lean function translated line by line from
`src/run.py`.  External effects (the `git` subprocess, `time.strftime`,
file I/O exceptions) are modelled explicitly and documented at their
definitions.
-/

namespace Notepad

/-- `REPO_DIR` constant from `run.py` line 8. -/
def REPO_DIR : String := "notes_repo"

/-- `NOTE_FILENAME` constant from `run.py` line 9. -/
def NOTE_FILENAME : String := "my_first_note.md"

/-- `NOTE_PATH = os.path.join(REPO_DIR, NOTE_FILENAME)` (`run.py` line 11). -/
def NOTE_PATH : String := REPO_DIR ++ "/" ++ NOTE_FILENAME

/-- The welcome text seeded into the note file by `setup_repo`
(`run.py` lines 45-48). -/
def WELCOME_TEXT : String :=
  "# Welcome to your Version-Controlled Notebook!\n\nStart typing here. Changes will be automatically committed to Git."

/-- A calendar timestamp as produced by Python `time.localtime`; the
argument of `time.strftime`.  The program reads the clock once per save
request (`run.py` line 111) and once more inside the no-changes branch of
`run_git_commit` (line 79); we model the clock as constant during a single
request, so one `Timestamp` is threaded through each request. -/
structure Timestamp where
  year : Nat
  month : Nat
  day : Nat
  hour : Nat
  minute : Nat
  second : Nat
  deriving Repr, DecidableEq

/-- Zero-pad a number to (at least) two digits: Python `%m`, `%d`, `%H`,
`%M`, `%S` of `time.strftime`. -/
def pad2 (n : Nat) : String :=
  if n < 10 then "0" ++ toString n else toString n

/-- Zero-pad a year to four digits: Python `%Y`.  For `n < 10000` this
agrees with C `%04d`, which is all `strftime` ever receives from
`localtime`. -/
def pad4 (n : Nat) : String :=
  pad2 (n / 100) ++ pad2 (n % 100)

/-- `time.strftime("%Y-%m-%d %H:%M:%S")` (`run.py` line 111). -/
def strftimeFull (t : Timestamp) : String :=
  pad4 t.year ++ "-" ++ pad2 t.month ++ "-" ++ pad2 t.day ++ " "
    ++ pad2 t.hour ++ ":" ++ pad2 t.minute ++ ":" ++ pad2 t.second

/-- `time.strftime("%H:%M:%S")` (`run.py` line 79). -/
def strftimeHMS (t : Timestamp) : String :=
  pad2 t.hour ++ ":" ++ pad2 t.minute ++ ":" ++ pad2 t.second

/-- The observable state of the program environment: the filesystem
around `notes_repo`, the git repository, and failure-injection flags for
the parts of the environment that can fail (`git` missing from PATH,
`git init` failing, note-file reads/writes raising `IOError`).

The git repository is modelled by the content of the single tracked file
in the staging area (`staged`) and in the `HEAD` commit (`headTree`),
`none` meaning the file is absent there, plus the linear list of commit
messages (`commits`, oldest first, matching the spec's append-only linear
history).  `log` collects lines printed to stdout by the program. -/
structure Sys where
  /-- `git` executable present on PATH. -/
  gitInstalled : Bool
  /-- the `notes_repo` directory exists. -/
  repoDir : Bool
  /-- the `notes_repo/.git` metadata directory exists. -/
  gitDir : Bool
  /-- `some e` injects a `git init` failure (`CalledProcessError` whose
  string form is `e`); `none` means `git init` succeeds. -/
  initErr : Option String
  /-- content of the note file; `none` if the file does not exist. -/
  note : Option String
  /-- content of the note file in git's staging area (index). -/
  staged : Option String
  /-- content of the note file in the `HEAD` commit; `none` if there is
  no commit yet or the file is not in it. -/
  headTree : Option String
  /-- commit messages, oldest first. -/
  commits : List String
  /-- `some e` injects an exception (message `e`) on any attempt to open
  the note file for writing; `none` means writes succeed. -/
  writeErr : Option String
  /-- `some e` injects an exception (message `e`) on any attempt to open
  the note file for reading; `none` means reads succeed (when the file
  exists). -/
  readErr : Option String
  /-- lines printed to stdout so far. -/
  log : List String
  deriving Repr, DecidableEq

/-- Result of a completed subprocess (`subprocess.CompletedProcess`). -/
structure ProcResult where
  returncode : Nat
  stdout : String
  stderr : String
  deriving Repr, DecidableEq

/-- Outcome of a `subprocess.run` call: a completed process, or one of
the two exception classes the program catches. -/
inductive ProcOutcome where
  | ok (r : ProcResult)
  | calledProcessError (stderr : String)
  | fileNotFound
  deriving Repr, DecidableEq

/-- Model of `subprocess.run(["git", "add", "."], check=True)` in the
repository working directory: raises `FileNotFoundError` if `git` is not
on PATH; raises `CalledProcessError` (git exits 128) outside a git
repository; otherwise stages the working tree, i.e. copies the note
file's state into the index.  Since git 2.0, `git add .` also stages
deletions, so an absent working file clears the index entry. -/
def gitAdd (s : Sys) : ProcOutcome × Sys :=
  if s.gitInstalled = false then (.fileNotFound, s)
  else if s.gitDir = false then
    (.calledProcessError "fatal: not a git repository (or any of the parent directories): .git", s)
  else (.ok ⟨0, "", ""⟩, { s with staged := s.note })

/-- Model of `subprocess.run(["git", "commit", "-m", msg], check=False)`:
raises `FileNotFoundError` if `git` is not on PATH; exits 128 outside a
repository.  When the staged tree equals the `HEAD` tree there is nothing
to commit: git prints `nothing to commit, working tree clean` on stdout
and exits with status 1 (not 0), stderr empty.  Otherwise the commit is
created (append the message, advance `HEAD` to the staged tree), git
prints a summary on stdout and exits 0; the summary is modelled as a
fixed string since commit hashes are nondeterministic.  We assume git
author identity is configured (otherwise no commit ever succeeds). -/
def gitCommit (msg : String) (s : Sys) : ProcOutcome × Sys :=
  if s.gitInstalled = false then (.fileNotFound, s)
  else if s.gitDir = false then
    (.ok ⟨128, "", "fatal: not a git repository (or any of the parent directories): .git"⟩, s)
  else if s.staged = s.headTree then
    (.ok ⟨1, "nothing to commit, working tree clean", ""⟩, s)
  else
    (.ok ⟨0, "[master 0000000] 1 file changed", ""⟩,
     { s with commits := s.commits ++ [msg], headTree := s.staged })

/-- Python `str.strip()` with no argument: remove leading and trailing
whitespace. -/
def pyStrip (s : String) : String :=
  String.mk (((s.data.dropWhile Char.isWhitespace).reverse.dropWhile
    Char.isWhitespace).reverse)

/-- `needle` occurs as a contiguous sublist of `hay`: Python
`needle in hay` on strings, applied to their character lists. -/
def isSubList (needle : List Char) : List Char → Bool
  | [] => needle.isEmpty
  | c :: rest => needle.isPrefixOf (c :: rest) || isSubList needle rest

/-- Python substring test `needle in hay`. -/
def containsSub (hay needle : String) : Bool :=
  isSubList needle.data hay.data

/-- `run_git_commit(message)` (`run.py` lines 55-87), translated
line by line; `now` is the wall clock read by the
`time.strftime('%H:%M:%S')` call in the no-changes branch.  Returns the
status string and the updated state.  All exception paths of the two
subprocess calls are caught and converted to strings, exactly as in the
`try`/`except` of the source. -/
def run_git_commit (message : String) (now : Timestamp) (s : Sys) : String × Sys :=
  match gitAdd s with
  | (.fileNotFound, s1) => ("System error: Git executable not found.", s1)
  | (.calledProcessError e, s1) => ("System error during Git operation: " ++ e, s1)
  | (.ok _, s1) =>
    match gitCommit message s1 with
    | (.fileNotFound, s2) => ("System error: Git executable not found.", s2)
    | (.calledProcessError e, s2) => ("System error during Git operation: " ++ e, s2)
    | (.ok r, s2) =>
      if r.returncode = 0 then
        if containsSub r.stdout "nothing to commit" then
          ("No changes detected (Autosave attempted at " ++ strftimeHMS now ++ ").", s2)
        else
          ("Change committed successfully! (" ++ message ++ ")", s2)
      else
        ("Git Commit Failed: " ++ pyStrip r.stderr, s2)

/-- Lines 44-52 of `setup_repo` (`run.py`): if the note file is absent,
seed it with the welcome text (a bare `open(...).write(...)`, not inside
any `try`, so a raised exception — returned here as `.error e` —
propagates out of `setup_repo`) and make the initial commit; then
`return True`. -/
def seedNoteFile (now : Timestamp) (s : Sys) : Except String (Bool × Sys) :=
  match s.note with
  | some _ => .ok (true, s)
  | none =>
    match s.writeErr with
    | some e => .error e
    | none =>
      let s1 := { s with note := some WELCOME_TEXT }
      let (_, s2) := run_git_commit "Initial setup of the notebook file." now s1
      .ok (true, s2)

/-- `setup_repo()` (`run.py` lines 16-52), translated line by line.
`now` is the wall clock (used only by the seeding commit).  Returns
`.error e` when the unguarded seed write of the note file raises;
otherwise returns the function's boolean result and the updated state. -/
def setup_repo (now : Timestamp) (s : Sys) : Except String (Bool × Sys) :=
  -- lines 18-20: create the directory if absent
  let s1 := if s.repoDir = false then
      { s with repoDir := true, log := s.log ++ ["Created directory: " ++ REPO_DIR] }
    else s
  -- lines 22-41: git init if .git is absent; `return False` on failure
  if s1.gitDir = true then seedNoteFile now s1
  else if s1.gitInstalled = false then
    .ok (false, { s1 with log := s1.log ++
      ["Error: Git command not found. Please ensure Git is installed and in your system PATH."] })
  else
    match s1.initErr with
    | some e => .ok (false, { s1 with log := s1.log ++ ["Error initializing Git: " ++ e] })
    | none =>
      seedNoteFile now
        { s1 with gitDir := true, log := s1.log ++ ["Initialized Git repository in " ++ REPO_DIR] }

/-- Possible fates of the process at module import time. -/
inductive StartResult where
  | serve (s : Sys)
  | exit (code : Nat) (s : Sys)
  deriving Repr, DecidableEq

/-- The module-level startup code (`run.py` lines 91-93): run
`setup_repo` once; on `False`, print the failure line and `exit(1)`.  An
exception propagating out of `setup_repo` also terminates the Python
process with exit status 1 (uncaught-exception traceback). -/
def startup (now : Timestamp) (s : Sys) : StartResult :=
  match setup_repo now s with
  | .error _ => .exit 1 s
  | .ok (true, s1) => .serve s1
  | .ok (false, s1) =>
      .exit 1 { s1 with log := s1.log ++
        ["Application failed to set up the Git repository. Exiting."] }

/-- Reading the note file (`open(NOTE_PATH).read()`): `.error e` when the
read raises (injected failure, or `FileNotFoundError` when the file is
absent — quotes of the original errno message omitted), `.ok` with the
content otherwise. -/
def readNoteFile (s : Sys) : Except String String :=
  match s.readErr with
  | some e => .error e
  | none =>
    match s.note with
    | some c => .ok c
    | none => .error ("[Errno 2] No such file or directory: " ++ NOTE_PATH)

/-- The data interpolated into the HTML page by `render_template_string`
(`run.py` line 104).  The surrounding fixed HTML/JS template text carries
no program state and is not modelled; only the interpolated note content
is. -/
structure Page where
  note_content : String
  deriving Repr, DecidableEq

/-- The `GET /` handler `index()` (`run.py` lines 96-104): read the note
file, catching every exception into the inline sentinel string, and
render the page. -/
def index (s : Sys) : Page × Sys :=
  let content := match readNoteFile s with
    | .ok c => c
    | .error e => "Error loading file: " ++ e
  (⟨content⟩, s)

/-- The JSON body returned by the `POST /save` handler. -/
structure SaveResponse where
  status : String
  message : String
  deriving Repr, DecidableEq

/-- The `POST /save` handler `save_and_commit()` (`run.py` lines
107-124): `formContent` is `request.form.get("content")` — `none` when
the field is absent, defaulted to `""` by the source's `.get(..., "")`.
Write the file (responding with a write-failure error and performing no
commit if it raises), then run `run_git_commit` and wrap its string in a
success response. -/
def save_and_commit (formContent : Option String) (now : Timestamp) (s : Sys) :
    SaveResponse × Sys :=
  let new_content := formContent.getD ""
  let commit_message := "Autosave: " ++ strftimeFull now
  match s.writeErr with
  | some e => (⟨"error", "File write failed: " ++ e⟩, s)
  | none =>
    let s1 := { s with note := some new_content }
    let (msg, s2) := run_git_commit commit_message now s1
    (⟨"success", msg⟩, s2)

/-- A state in which bootstrap has completed: directory, git metadata and
note file all exist. -/
def Bootstrapped (s : Sys) : Prop :=
  s.repoDir = true ∧ s.gitDir = true ∧ s.note.isSome = true

/-- The canonical state right after a successful first bootstrap: the
welcome text is on disk, staged, and recorded in the initial commit. -/
def bootstrappedState : Sys :=
  ⟨true, true, true, none, some WELCOME_TEXT, some WELCOME_TEXT, some WELCOME_TEXT,
   ["Initial setup of the notebook file."], none, none, []⟩

/-- A completely fresh machine without git: empty filesystem, no git
executable. -/
def freshNoGitState : Sys :=
  ⟨false, false, false, none, none, none, none, [], none, none, []⟩

/-- A sample wall-clock instant used by concrete witnesses. -/
def sampleTime : Timestamp := ⟨2026, 10, 12, 9, 30, 5⟩

/-- Shape check for one `time.strftime` output line: exactly the pattern
`YYYY-MM-DD HH:MM:SS`, all nineteen characters in place and the fourteen
marked positions decimal digits. -/
def tsShape (l : List Char) : Bool :=
  match l with
  | [y1, y2, y3, y4, '-', mo1, mo2, '-', d1, d2, ' ', h1, h2, ':', mi1, mi2, ':', c1, c2] =>
    y1.isDigit && y2.isDigit && y3.isDigit && y4.isDigit &&
    mo1.isDigit && mo2.isDigit && d1.isDigit && d2.isDigit &&
    h1.isDigit && h2.isDigit && mi1.isDigit && mi2.isDigit &&
    c1.isDigit && c2.isDigit
  | _ => false

/-- A string has the timestamp form `YYYY-MM-DD HH:MM:SS`. -/
def timestampShape (s : String) : Bool := tsShape s.data

/-- Bounded check that `pad2` yields two digit characters. -/
def pad2Check (n : Nat) : Bool :=
  match (pad2 n).data with
  | [a, b] => a.isDigit && b.isDigit
  | _ => false

theorem pad2Check_lt_100 : ∀ n, n < 100 → pad2Check n = true := by decide

theorem pad2_digits {n : Nat} (h : n < 100) :
    ∃ a b, (pad2 n).data = [a, b] ∧ a.isDigit = true ∧ b.isDigit = true := by
  have hc := pad2Check_lt_100 n h
  unfold pad2Check at hc
  rcases hd : (pad2 n).data with _ | ⟨a, _ | ⟨b, _ | _⟩⟩ <;> rw [hd] at hc <;> simp at hc
  exact ⟨a, b, rfl, hc.1, hc.2⟩

theorem tsShape_pattern {y1 y2 y3 y4 mo1 mo2 d1 d2 h1 h2 mi1 mi2 c1 c2 : Char}
    (hy1 : y1.isDigit = true) (hy2 : y2.isDigit = true) (hy3 : y3.isDigit = true)
    (hy4 : y4.isDigit = true) (hmo1 : mo1.isDigit = true) (hmo2 : mo2.isDigit = true)
    (hd1 : d1.isDigit = true) (hd2 : d2.isDigit = true) (hh1 : h1.isDigit = true)
    (hh2 : h2.isDigit = true) (hmi1 : mi1.isDigit = true) (hmi2 : mi2.isDigit = true)
    (hc1 : c1.isDigit = true) (hc2 : c2.isDigit = true) :
    tsShape [y1, y2, y3, y4, '-', mo1, mo2, '-', d1, d2, ' ',
             h1, h2, ':', mi1, mi2, ':', c1, c2] = true := by
  simp [tsShape, hy1, hy2, hy3, hy4, hmo1, hmo2, hd1, hd2, hh1, hh2, hmi1, hmi2, hc1, hc2]

/-- Any `strftimeFull` output for a timestamp from `time.localtime`
(year below 10000 and the other fields two-digit) has the shape
`YYYY-MM-DD HH:MM:SS`. -/
theorem timestampShape_strftimeFull (t : Timestamp)
    (hy : t.year < 10000) (hmo : t.month < 100) (hd : t.day < 100)
    (hh : t.hour < 100) (hmi : t.minute < 100) (hs : t.second < 100) :
    timestampShape (strftimeFull t) = true := by
  obtain ⟨a1, a2, ha, ha1, ha2⟩ := pad2_digits (show t.year / 100 < 100 by omega)
  obtain ⟨b1, b2, hb, hb1, hb2⟩ := pad2_digits (show t.year % 100 < 100 by omega)
  obtain ⟨m1, m2, hm, hm1, hm2⟩ := pad2_digits hmo
  obtain ⟨e1, e2, he, he1, he2⟩ := pad2_digits hd
  obtain ⟨f1, f2, hf, hf1, hf2⟩ := pad2_digits hh
  obtain ⟨g1, g2, hg, hg1, hg2⟩ := pad2_digits hmi
  obtain ⟨k1, k2, hk, hk1, hk2⟩ := pad2_digits hs
  unfold timestampShape strftimeFull pad4
  simp only [String.data_append, ha, hb, hm, he, hf, hg, hk]
  exact tsShape_pattern ha1 ha2 hb1 hb2 hm1 hm2 he1 he2 hf1 hf2 hg1 hg2 hk1 hk2

/-- C1: on a bootstrapped repository, saving the same content twice in a
row yields the Committed message for the first request, but for the
second request the code returns `"Git Commit Failed: "` — not the
NoChanges message the claim states.  Real git exits with status 1 and
prints `nothing to commit, working tree clean` on stdout when there is
nothing to commit, while `run_git_commit` tests the stdout marker only
when the exit status is 0 (`run.py` lines 77-82), so the NoChanges branch
is unreachable and the claim fails on the second request. -/
theorem save_twice_second_is_commit_failed :
    (save_and_commit (some "Hello") sampleTime bootstrappedState).1.message
      = "Change committed successfully! (Autosave: 2026-10-12 09:30:05)"
    ∧ (save_and_commit (some "Hello") sampleTime
        (save_and_commit (some "Hello") sampleTime bootstrappedState).2).1.message
      = "Git Commit Failed: "
    ∧ (save_and_commit (some "Hello") sampleTime
        (save_and_commit (some "Hello") sampleTime bootstrappedState).2).1.message
      ≠ "No changes detected (Autosave attempted at 09:30:05)." :=
  ⟨by decide, by decide, by decide⟩

/-- C2: when writing the note file raises, the `/save` handler responds
with the error status and the write-failure message, and performs no
commit — the whole state, in particular the commit history, is returned
unchanged. -/
theorem write_failure_short_circuits (c : Option String) (t : Timestamp) (s : Sys)
    (e : String) (hw : s.writeErr = some e) :
    save_and_commit c t s = (⟨"error", "File write failed: " ++ e⟩, s)
    ∧ (save_and_commit c t s).2.commits = s.commits := by
  unfold save_and_commit
  rw [hw]
  exact ⟨rfl, rfl⟩

theorem write_failure_short_circuits_witness :
    save_and_commit (some "x") sampleTime { bootstrappedState with writeErr := some "disk full" }
        = (⟨"error", "File write failed: disk full"⟩,
           { bootstrappedState with writeErr := some "disk full" })
    ∧ (save_and_commit (some "x") sampleTime
        { bootstrappedState with writeErr := some "disk full" }).2.commits
        = ({ bootstrappedState with writeErr := some "disk full" } : Sys).commits :=
  write_failure_short_circuits (some "x") sampleTime
    { bootstrappedState with writeErr := some "disk full" } "disk full" rfl

/-- C3: whenever the note-file write succeeds, the `/save` response has
status `"success"`, and its message is exactly the string produced by
`run_git_commit` — every commit outcome (no changes, committed, commit
failed, subprocess exception) is embedded in a success response, never
raised. -/
theorem save_success_status (c : Option String) (t : Timestamp) (s : Sys)
    (hw : s.writeErr = none) :
    (save_and_commit c t s).1.status = "success"
    ∧ (save_and_commit c t s).1.message
        = (run_git_commit ("Autosave: " ++ strftimeFull t) t
            { s with note := some (c.getD "") }).1 := by
  unfold save_and_commit
  rw [hw]
  exact ⟨rfl, rfl⟩

theorem save_success_status_witness :
    (save_and_commit (some "Hello") sampleTime bootstrappedState).1.status = "success"
    ∧ (save_and_commit (some "Hello") sampleTime bootstrappedState).1.message
        = (run_git_commit ("Autosave: " ++ strftimeFull sampleTime) sampleTime
            { bootstrappedState with note := some ((some "Hello").getD "") }).1 :=
  save_success_status (some "Hello") sampleTime bootstrappedState rfl

/-- `git add` never touches the note file on disk. -/
theorem gitAdd_note (s : Sys) : (gitAdd s).2.note = s.note := by
  unfold gitAdd
  split_ifs <;> rfl

/-- `git commit` never touches the note file on disk. -/
theorem gitCommit_note (msg : String) (s : Sys) : (gitCommit msg s).2.note = s.note := by
  unfold gitCommit
  split_ifs <;> rfl

/-- `run_git_commit` never touches the note file on disk. -/
theorem run_git_commit_note (msg : String) (now : Timestamp) (s : Sys) :
    (run_git_commit msg now s).2.note = s.note := by
  unfold run_git_commit
  split
  next s1 heq =>
    have h := gitAdd_note s
    rw [heq] at h
    exact h
  next e s1 heq =>
    have h := gitAdd_note s
    rw [heq] at h
    exact h
  next r s1 heq =>
    have h1 : s1.note = s.note := by
      have h := gitAdd_note s
      rw [heq] at h
      exact h
    split
    next s2 heq2 =>
      have h2 := gitCommit_note msg s1
      rw [heq2] at h2
      exact h2.trans h1
    next e s2 heq2 =>
      have h2 := gitCommit_note msg s1
      rw [heq2] at h2
      exact h2.trans h1
    next r2 s2 heq2 =>
      have h2 := gitCommit_note msg s1
      rw [heq2] at h2
      split_ifs <;> exact h2.trans h1

/-- Characterization of a `/save` request whose file write succeeds: the
response wraps `run_git_commit`'s string in a success status, and the
resulting state is the one `run_git_commit` leaves behind after the note
file has been overwritten. -/
theorem save_and_commit_ok (c : Option String) (t : Timestamp) (s : Sys)
    (hw : s.writeErr = none) :
    save_and_commit c t s =
      (⟨"success", (run_git_commit ("Autosave: " ++ strftimeFull t) t
          { s with note := some (c.getD "") }).1⟩,
       (run_git_commit ("Autosave: " ++ strftimeFull t) t
          { s with note := some (c.getD "") }).2) := by
  unfold save_and_commit
  rw [hw]

/-- C4: a `/save` request with no `content` field behaves exactly like a
request carrying the empty string: the note file is overwritten with
`""` and the pipeline still reaches the commit step. -/
theorem missing_content_is_empty_string (t : Timestamp) (s : Sys)
    (hw : s.writeErr = none) :
    save_and_commit none t s = save_and_commit (some "") t s
    ∧ (save_and_commit none t s).2.note = some ""
    ∧ (save_and_commit none t s).1.message
        = (run_git_commit ("Autosave: " ++ strftimeFull t) t { s with note := some "" }).1 := by
  have h := save_and_commit_ok none t s hw
  refine ⟨rfl, ?_, ?_⟩
  · rw [h]
    exact run_git_commit_note _ _ _
  · rw [h]
    rfl

theorem missing_content_is_empty_string_witness :
    save_and_commit none sampleTime bootstrappedState
        = save_and_commit (some "") sampleTime bootstrappedState
    ∧ (save_and_commit none sampleTime bootstrappedState).2.note = some ""
    ∧ (save_and_commit none sampleTime bootstrappedState).1.message
        = (run_git_commit ("Autosave: " ++ strftimeFull sampleTime) sampleTime
            { bootstrappedState with note := some "" }).1 :=
  missing_content_is_empty_string sampleTime bootstrappedState rfl

/-- C10: the `GET /` handler is read-only — rendering the page returns
the state unchanged, so it modifies neither the note file nor the commit
history. -/
theorem index_read_only (s : Sys) : (index s).2 = s := rfl

/-- The stdout of a successful `git commit` does not contain the
no-changes marker. -/
theorem containsSub_success_stdout :
    containsSub "[master 0000000] 1 file changed" "nothing to commit" = false := by decide

/-- C5: saving `"Hello"` when the last commit holds different content
overwrites the note file with exactly `Hello`, answers with a success
status whose message is the Committed message around `Autosave: `
followed by a `YYYY-MM-DD HH:MM:SS` timestamp, and appends exactly one
new commit carrying that message. -/
theorem save_hello_commits (s : Sys) (t : Timestamp)
    (hw : s.writeErr = none) (hg : s.gitInstalled = true) (hd : s.gitDir = true)
    (hne : s.headTree ≠ some "Hello")
    (hy : t.year < 10000) (hmo : t.month < 100) (hda : t.day < 100)
    (hh : t.hour < 100) (hmi : t.minute < 100) (hs : t.second < 100) :
    (save_and_commit (some "Hello") t s).2.note = some "Hello"
    ∧ (save_and_commit (some "Hello") t s).1
        = ⟨"success", "Change committed successfully! (Autosave: " ++ strftimeFull t ++ ")"⟩
    ∧ timestampShape (strftimeFull t) = true
    ∧ (save_and_commit (some "Hello") t s).2.commits
        = s.commits ++ ["Autosave: " ++ strftimeFull t] := by
  rw [save_and_commit_ok (some "Hello") t s hw]
  simp only [Option.getD_some]
  have hrun : run_git_commit ("Autosave: " ++ strftimeFull t) t { s with note := some "Hello" }
      = ("Change committed successfully! (" ++ ("Autosave: " ++ strftimeFull t) ++ ")",
         { s with note := some "Hello", staged := some "Hello",
                  commits := s.commits ++ ["Autosave: " ++ strftimeFull t],
                  headTree := some "Hello" }) := by
    unfold run_git_commit gitAdd gitCommit
    simp [hg, hd, Ne.symm hne, containsSub_success_stdout]
  rw [hrun]
  refine ⟨rfl, ?_, timestampShape_strftimeFull t hy hmo hda hh hmi hs, rfl⟩
  congr 1

theorem save_hello_commits_witness :
    (save_and_commit (some "Hello") sampleTime bootstrappedState).2.note = some "Hello"
    ∧ (save_and_commit (some "Hello") sampleTime bootstrappedState).1
        = ⟨"success", "Change committed successfully! (Autosave: "
            ++ strftimeFull sampleTime ++ ")"⟩
    ∧ timestampShape (strftimeFull sampleTime) = true
    ∧ (save_and_commit (some "Hello") sampleTime bootstrappedState).2.commits
        = bootstrappedState.commits ++ ["Autosave: " ++ strftimeFull sampleTime] :=
  save_hello_commits bootstrappedState sampleTime rfl rfl rfl (by decide)
    (by decide) (by decide) (by decide) (by decide) (by decide) (by decide)

/-- C6: on any already-bootstrapped state, `setup_repo` succeeds and
returns the state completely unchanged — no directory creation, no
re-initialization, no rewrite of the note file, no duplicate initial
commit, nothing printed. -/
theorem setup_repo_idempotent (now : Timestamp) (s : Sys) (h : Bootstrapped s) :
    setup_repo now s = .ok (true, s) := by
  obtain ⟨h1, h2, h3⟩ := h
  obtain ⟨c, hc⟩ := Option.isSome_iff_exists.mp h3
  unfold setup_repo seedNoteFile
  simp [h1, h2, hc]

theorem setup_repo_idempotent_witness :
    setup_repo sampleTime bootstrappedState = .ok (true, bootstrappedState) :=
  setup_repo_idempotent sampleTime bootstrappedState ⟨rfl, rfl, rfl⟩

/-- A bootstrapped machine from which the git executable has been
removed. -/
def bootstrappedNoGitState : Sys := { bootstrappedState with gitInstalled := false }

/-- C7 counterexample: with the repository already bootstrapped, the
process starts and serves even though the git executable is absent —
`setup_repo` only invokes git when the metadata directory is missing, so
nothing detects the absence and the process neither logs an error nor
exits.  The claim as stated (for every startup with git absent) is
therefore false. -/
theorem missing_git_still_serves :
    bootstrappedNoGitState.gitInstalled = false
    ∧ startup sampleTime bootstrappedNoGitState = .serve bootstrappedNoGitState := by
  exact ⟨rfl, by decide⟩

/-- C7 (amended): when the git executable is absent at startup *and the
git metadata directory does not yet exist* (a fresh start, as in the
spec's end-to-end scenario D), the process logs the git-not-found error
and exits with status 1 before serving. -/
theorem missing_git_fresh_start_exits (now : Timestamp) (s : Sys)
    (hg : s.gitInstalled = false) (hd : s.gitDir = false) :
    ∃ s2, startup now s = .exit 1 s2
      ∧ "Error: Git command not found. Please ensure Git is installed and in your system PATH."
          ∈ s2.log := by
  unfold startup setup_repo
  by_cases hr : s.repoDir = false <;>
    simp [hr, hg, hd, List.mem_append]

theorem missing_git_fresh_start_exits_witness :
    ∃ s2, startup sampleTime freshNoGitState = .exit 1 s2
      ∧ "Error: Git command not found. Please ensure Git is installed and in your system PATH."
          ∈ s2.log :=
  missing_git_fresh_start_exits sampleTime freshNoGitState rfl rfl

/-- C8: whenever reading the note file fails — an injected I/O error or
the file being absent — the `GET /` handler swallows the exception and
renders the page with the inline sentinel `Error loading file: <detail>`
in place of the content, leaving the state untouched. -/
theorem read_failure_renders_sentinel (s : Sys) (e : String)
    (hr : readNoteFile s = .error e) :
    index s = (⟨"Error loading file: " ++ e⟩, s) := by
  unfold index
  rw [hr]

theorem read_failure_renders_sentinel_witness :
    index { bootstrappedState with readErr := some "Permission denied" }
      = (⟨"Error loading file: Permission denied"⟩,
         { bootstrappedState with readErr := some "Permission denied" }) :=
  read_failure_renders_sentinel
    { bootstrappedState with readErr := some "Permission denied" } "Permission denied" rfl

/-- C9: `run_git_commit` converts both subprocess exception classes into
plain strings instead of propagating them — `FileNotFoundError` (git
executable missing at save time, unnamed by the spec's taxonomy) becomes
`System error: Git executable not found.` with the state untouched, a
`CalledProcessError` from `git add` becomes `System error during Git
operation: <stderr>` — and the `/save` handler then reports the string
with status `"success"`. -/
theorem git_exceptions_become_strings (msg : String) (c : Option String)
    (now : Timestamp) (s : Sys)
    (hg : s.gitInstalled = false) (hw : s.writeErr = none) :
    run_git_commit msg now s = ("System error: Git executable not found.", s)
    ∧ (run_git_commit msg now { s with gitInstalled := true, gitDir := false }).1
        = "System error during Git operation: fatal: not a git repository (or any of the parent directories): .git"
    ∧ (save_and_commit c now s).1
        = ⟨"success", "System error: Git executable not found."⟩ := by
  have key : ∀ (m : String) (s' : Sys), s'.gitInstalled = false →
      run_git_commit m now s' = ("System error: Git executable not found.", s') := by
    intro m s' hg'
    unfold run_git_commit gitAdd
    simp [hg']
  refine ⟨key msg s hg, ?_, ?_⟩
  · unfold run_git_commit gitAdd
    simp
  · rw [save_and_commit_ok c now s hw,
        key ("Autosave: " ++ strftimeFull now) { s with note := some (c.getD "") } hg]

theorem git_exceptions_become_strings_witness :
    run_git_commit "Autosave: 2026-10-12 09:30:05" sampleTime bootstrappedNoGitState
        = ("System error: Git executable not found.", bootstrappedNoGitState)
    ∧ (run_git_commit "Autosave: 2026-10-12 09:30:05" sampleTime
        { bootstrappedNoGitState with gitInstalled := true, gitDir := false }).1
        = "System error during Git operation: fatal: not a git repository (or any of the parent directories): .git"
    ∧ (save_and_commit (some "Hello") sampleTime bootstrappedNoGitState).1
        = ⟨"success", "System error: Git executable not found."⟩ :=
  git_exceptions_become_strings "Autosave: 2026-10-12 09:30:05" (some "Hello")
    sampleTime bootstrappedNoGitState rfl rfl

end Notepad
